import Mathlib

/-!
Verification of the behavioral spec of `uclock.c` (bmjcode/uptime-clock),
a Win32 clock-with-uptime display, against a shallow embedding of its code.

The embedding models the C source faithfully:
  * machine integers (`unsigned long long`, `LONG`) appear as `Nat` — all
    quantities involved (tick counts, window sizes, field values) are
    nonnegative and no operation in the modelled code can overflow 64 bits
    for the inputs considered;
  * the fixed-size `TCHAR` buffers `szClock`/`szUptime` are `List Nat`
    (character codes, 0 = NUL), of length `CLOCK_LEN + 1` resp.
    `UPTIME_LEN + 1`, so null-termination is a provable property;
  * external collaborators (`strftime`, `snprintf`, `GetLocalTime`,
    `GetTickCount64`/`GetTickCount`, window/timer calls) are modelled by
    their documented semantics, with their results or success passed in as
    explicit inputs where they come from the environment.
-/

namespace UClock

/-! ### Constants from uclock.c (lines 46-67) -/

/-- `#define CLOCK_LEN 22` — clock string capacity (uclock.c line 48). -/
def CLOCK_LEN : Nat := 22

/-- `#define UPTIME_LEN 28` — uptime string capacity (uclock.c line 54). -/
def UPTIME_LEN : Nat := 28

/-- `#define MSEC_PER_SEC 1000` (uclock.c line 64). -/
def MSEC_PER_SEC : Nat := 1000

/-- `#define MSEC_PER_MIN ((MSEC_PER_SEC) * 60)` (uclock.c line 65). -/
def MSEC_PER_MIN : Nat := MSEC_PER_SEC * 60

/-- `#define MSEC_PER_HR ((MSEC_PER_MIN) * 60)` (uclock.c line 66). -/
def MSEC_PER_HR : Nat := MSEC_PER_MIN * 60

/-- `#define MSEC_PER_DAY ((MSEC_PER_HR) * 24)` (uclock.c line 67). -/
def MSEC_PER_DAY : Nat := MSEC_PER_HR * 24

/-! ### Uptime decomposition (UpdateClock, uclock.c lines 384-391) -/

/-- The four uptime fields computed by `UpdateClock`. -/
structure UptimeFields where
  days : Nat
  hours : Nat
  minutes : Nat
  seconds : Nat
deriving Repr, DecidableEq

/-- The successive division/remainder chain of `UpdateClock`
(uclock.c lines 385-391):
`days = ticks / MSEC_PER_DAY; ticks %= MSEC_PER_DAY;`
`hours = ticks / MSEC_PER_HR; ticks %= MSEC_PER_HR;`
`minutes = ticks / MSEC_PER_MIN; ticks %= MSEC_PER_MIN;`
`seconds = ticks / MSEC_PER_SEC;`. -/
def uptimeFields (ticks : Nat) : UptimeFields :=
  let days := ticks / MSEC_PER_DAY
  let t1 := ticks % MSEC_PER_DAY
  let hours := t1 / MSEC_PER_HR
  let t2 := t1 % MSEC_PER_HR
  let minutes := t2 / MSEC_PER_MIN
  let t3 := t2 % MSEC_PER_MIN
  let seconds := t3 / MSEC_PER_SEC
  { days := days, hours := hours, minutes := minutes, seconds := seconds }

end UClock

/-- C1: for every uptime value U ≥ 0 ms, the days/hours/minutes/seconds
computed by the uptime update decompose U exactly with no loss
(days·86400000 + hours·3600000 + minutes·60000 + seconds·1000 + U mod 1000
= U), and in particular U = 90000000 gives days = 1, hours = 1,
minutes = 0, seconds = 0. -/
theorem UClock.uptime_decomposes_exactly :
    (∀ U : Nat,
      (UClock.uptimeFields U).days * UClock.MSEC_PER_DAY
        + (UClock.uptimeFields U).hours * UClock.MSEC_PER_HR
        + (UClock.uptimeFields U).minutes * UClock.MSEC_PER_MIN
        + (UClock.uptimeFields U).seconds * UClock.MSEC_PER_SEC
        + U % 1000 = U)
    ∧ UClock.uptimeFields 90000000 =
        { days := 1, hours := 1, minutes := 0, seconds := 0 } := by
  constructor
  · intro U
    simp only [UClock.uptimeFields, UClock.MSEC_PER_DAY, UClock.MSEC_PER_HR,
      UClock.MSEC_PER_MIN, UClock.MSEC_PER_SEC]
    omega
  · rfl

namespace UClock

/-! ### Decimal formatting

Models the digit output of the printf-family `%lld` conversion (used in
`UPTIME_FMT`, uclock.c line 53) and of the numeric strftime conversions
(used in `CLOCK_FMT`, uclock.c line 47). -/

/-- Fuel-driven decimal digit expansion; fuel `n + 1` is always enough
since each recursive step divides `n` by 10. -/
def toDecimalAux (fuel n : Nat) : List Char :=
  match fuel with
  | 0 => []
  | fuel + 1 =>
    if n < 10 then [Nat.digitChar n]
    else toDecimalAux fuel (n / 10) ++ [Nat.digitChar (n % 10)]

/-- Decimal representation of a natural number, no padding (as printed by
the `%lld` conversion for a nonnegative value). -/
def natStr (n : Nat) : String := String.mk (toDecimalAux (n + 1) n)

theorem toDecimalAux_length_le :
    ∀ (fuel n k : Nat), 1 ≤ k → n < 10 ^ k →
      (toDecimalAux fuel n).length ≤ k := by
  intro fuel
  induction fuel with
  | zero => intro n k hk _; simp [toDecimalAux]
  | succ fuel ih =>
    intro n k hk h
    simp only [toDecimalAux]
    split
    · simpa using hk
    · rename_i hn
      have hk2 : 2 ≤ k := by
        rcases Nat.lt_or_ge k 2 with hlt | hge
        · interval_cases k
          omega
        · exact hge
      have hdiv : n / 10 < 10 ^ (k - 1) := by
        have hpow : (10 : Nat) ^ k = 10 * 10 ^ (k - 1) := by
          conv_lhs => rw [show k = (k - 1) + 1 by omega]
          rw [pow_succ']
        exact Nat.div_lt_of_lt_mul (hpow ▸ h)
      have := ih (n / 10) (k - 1) (by omega) hdiv
      simp only [List.length_append, List.length_cons, List.length_nil]
      omega

theorem toDecimalAux_length_ge :
    ∀ (fuel n k : Nat), n < fuel → 10 ^ k ≤ n →
      k + 1 ≤ (toDecimalAux fuel n).length := by
  intro fuel
  induction fuel with
  | zero => intro n k h _; omega
  | succ fuel ih =>
    intro n k hfuel h
    simp only [toDecimalAux]
    split
    · rename_i hn
      have hk : k = 0 := by
        by_contra hk0
        have : 10 ^ 1 ≤ 10 ^ k := Nat.pow_le_pow_right (by omega) (by omega)
        simp at this
        omega
      simp [hk]
    · rename_i hn
      push_neg at hn
      simp only [List.length_append, List.length_cons, List.length_nil]
      match k with
      | 0 => omega
      | k + 1 =>
        have hdiv : 10 ^ k ≤ n / 10 := by
          rw [Nat.le_div_iff_mul_le (by omega)]
          calc 10 ^ k * 10 = 10 ^ (k + 1) := by rw [pow_succ]
            _ ≤ n := h
        have hfuel2 : n / 10 < fuel :=
          Nat.lt_of_lt_of_le (Nat.div_lt_self (by omega) (by omega)) (by omega)
        have := ih (n / 10) k hfuel2 hdiv
        omega

theorem natStr_length_le {n k : Nat} (hk : 1 ≤ k) (h : n < 10 ^ k) :
    (natStr n).length ≤ k := by
  simpa [natStr, String.length_mk] using toDecimalAux_length_le (n + 1) n k hk h

theorem natStr_length_ge {n k : Nat} (h : 10 ^ k ≤ n) :
    k + 1 ≤ (natStr n).length := by
  simpa [natStr, String.length_mk] using
    toDecimalAux_length_ge (n + 1) n k (Nat.lt_succ_self n) h

theorem natStr_length_pos (n : Nat) : 1 ≤ (natStr n).length := by
  simp only [natStr, String.length_mk, toDecimalAux]
  split <;> simp

/-! ### The uptime string (SNPRINTF with UPTIME_FMT, uclock.c lines 393-395) -/

/-- The string produced by
`SNPRINTF(..., UPTIME_FMT, days, hours, minutes, seconds)` with
`UPTIME_FMT = "%lld d, %lld hr, %lld min, %lld sec"` (uclock.c line 53). -/
def uptimeString (f : UptimeFields) : String :=
  natStr f.days ++ " d, " ++ natStr f.hours ++ " hr, " ++ natStr f.minutes
    ++ " min, " ++ natStr f.seconds ++ " sec"

end UClock

/-- C9: for every uptime U corresponding to at most 999 days, the formatted
uptime string "{days} d, {hours} hr, {minutes} min, {seconds} sec"
(no zero-padding) has length at most 28 characters. -/
theorem UClock.uptimeString_length_le (U : Nat)
    (h : U < 1000 * UClock.MSEC_PER_DAY) :
    (UClock.uptimeString (UClock.uptimeFields U)).length ≤ UClock.UPTIME_LEN := by
  have hdays : (UClock.uptimeFields U).days < 1000 := by
    simp only [UClock.uptimeFields]
    have : U / UClock.MSEC_PER_DAY < 1000 :=
      Nat.div_lt_of_lt_mul (by rw [Nat.mul_comm] at h; exact h)
    exact this
  have hhours : (UClock.uptimeFields U).hours < 24 := by
    simp only [UClock.uptimeFields, UClock.MSEC_PER_DAY, UClock.MSEC_PER_HR,
      UClock.MSEC_PER_MIN, UClock.MSEC_PER_SEC]
    omega
  have hminutes : (UClock.uptimeFields U).minutes < 60 := by
    simp only [UClock.uptimeFields, UClock.MSEC_PER_DAY, UClock.MSEC_PER_HR,
      UClock.MSEC_PER_MIN, UClock.MSEC_PER_SEC]
    omega
  have hseconds : (UClock.uptimeFields U).seconds < 60 := by
    simp only [UClock.uptimeFields, UClock.MSEC_PER_DAY, UClock.MSEC_PER_HR,
      UClock.MSEC_PER_MIN, UClock.MSEC_PER_SEC]
    omega
  have h1 : (UClock.natStr (UClock.uptimeFields U).days).length ≤ 3 :=
    UClock.natStr_length_le (by omega) (by norm_num; omega)
  have h2 : (UClock.natStr (UClock.uptimeFields U).hours).length ≤ 2 :=
    UClock.natStr_length_le (by omega) (by norm_num; omega)
  have h3 : (UClock.natStr (UClock.uptimeFields U).minutes).length ≤ 2 :=
    UClock.natStr_length_le (by omega) (by norm_num; omega)
  have h4 : (UClock.natStr (UClock.uptimeFields U).seconds).length ≤ 2 :=
    UClock.natStr_length_le (by omega) (by norm_num; omega)
  simp only [UClock.uptimeString, String.length_append, UClock.UPTIME_LEN]
  have c1 : (" d, " : String).length = 4 := rfl
  have c2 : (" hr, " : String).length = 5 := rfl
  have c3 : (" min, " : String).length = 6 := rfl
  have c4 : (" sec" : String).length = 4 := rfl
  omega

/-- Witness for C9 at U = 90000000 (1 day, 1 hour). -/
theorem UClock.uptimeString_length_le_witness :
    90000000 < 1000 * UClock.MSEC_PER_DAY ∧
      (UClock.uptimeString (UClock.uptimeFields 90000000)).length ≤
        UClock.UPTIME_LEN :=
  ⟨by decide, UClock.uptimeString_length_le 90000000 (by decide)⟩

/-- Sanity anchor: the two worked examples from the spec evaluate as stated. -/
example : UClock.uptimeString (UClock.uptimeFields 90000000) =
    "1 d, 1 hr, 0 min, 0 sec" := by decide

example : UClock.uptimeString (UClock.uptimeFields 3661000) =
    "0 d, 1 hr, 1 min, 1 sec" := by decide

namespace UClock

/-! ### The clock string (STRFTIME with CLOCK_FMT, uclock.c lines 46-48, 379-381)

`CLOCK_FMT` is `"%m/%d/%Y %I:%M:%S %p"`. We model the C strftime
conversions in the C locale: `%m`/`%d`/`%I`/`%M`/`%S` are zero-padded
two-digit fields, `%Y` is the year in decimal, `%p` is AM/PM. `LocalTime`
carries the display values of the broken-down time (the C `struct tm`
stores `tm_mon` 0-based and `tm_year` minus 1900; `%m` prints
`tm_mon + 1` and `%Y` prints `tm_year + 1900`, which is what `month` and
`year` hold here). -/

/-- Broken-down local time as returned by localtime(), in display units. -/
structure LocalTime where
  year : Nat
  month : Nat
  day : Nat
  hour : Nat
  minute : Nat
  second : Nat
deriving Repr, DecidableEq

/-- A valid local time: calendar field ranges of a `struct tm` produced by
localtime(), with the year range representable by the Windows CRT
(1970 through 3000). -/
def ValidLocalTime (t : LocalTime) : Prop :=
  1 ≤ t.month ∧ t.month ≤ 12 ∧ 1 ≤ t.day ∧ t.day ≤ 31 ∧
    t.hour ≤ 23 ∧ t.minute ≤ 59 ∧ t.second ≤ 59 ∧
    1970 ≤ t.year ∧ t.year ≤ 3000

instance (t : LocalTime) : Decidable (ValidLocalTime t) := by
  unfold ValidLocalTime
  infer_instance

/-- Zero-padded two-digit decimal field (strftime `%m`, `%d`, `%I`, `%M`,
`%S`). -/
def pad2 (n : Nat) : String :=
  if n < 10 then "0" ++ natStr n else natStr n

/-- The 12-hour clock hour printed by strftime `%I` (01-12). -/
def hour12 (hour : Nat) : Nat :=
  if hour % 12 = 0 then 12 else hour % 12

/-- The AM/PM designation printed by strftime `%p` in the C locale. -/
def ampm (hour : Nat) : String :=
  if hour < 12 then "AM" else "PM"

/-- The string produced by
`STRFTIME(..., CLOCK_FMT, timeinfo)` with
`CLOCK_FMT = "%m/%d/%Y %I:%M:%S %p"` (uclock.c line 47). -/
def clockString (t : LocalTime) : String :=
  pad2 t.month ++ "/" ++ pad2 t.day ++ "/" ++ natStr t.year ++ " "
    ++ pad2 (hour12 t.hour) ++ ":" ++ pad2 t.minute ++ ":" ++ pad2 t.second
    ++ " " ++ ampm t.hour

theorem natStr_length_one {n : Nat} (h : n < 10) : (natStr n).length = 1 := by
  have h1 : (natStr n).length ≤ 1 := natStr_length_le (by omega) (by simpa)
  have h2 := natStr_length_pos n
  omega

theorem pad2_length {n : Nat} (h : n < 100) : (pad2 n).length = 2 := by
  unfold pad2
  split
  · rename_i hn
    rw [String.length_append, natStr_length_one hn]
    decide
  · rename_i hn
    push_neg at hn
    have h1 : (natStr n).length ≤ 2 := natStr_length_le (by omega) (by simpa)
    have h2 : 1 + 1 ≤ (natStr n).length := natStr_length_ge (by simpa)
    omega

theorem ampm_length (hour : Nat) : (ampm hour).length = 2 := by
  unfold ampm
  split <;> rfl

theorem hour12_le (hour : Nat) : hour12 hour ≤ 12 := by
  unfold hour12
  split
  · exact Nat.le_refl 12
  · exact Nat.le_of_lt (Nat.lt_of_lt_of_le (Nat.mod_lt hour (by omega)) (by omega))

theorem year_length {y : Nat} (h1 : 1970 ≤ y) (h2 : y ≤ 3000) :
    (natStr y).length = 4 := by
  have hle : (natStr y).length ≤ 4 := natStr_length_le (by omega) (by norm_num; omega)
  have hge : 3 + 1 ≤ (natStr y).length := natStr_length_ge (by norm_num; omega)
  omega

end UClock

/-- C2: for every valid local time, the formatted clock string produced by
the clock update is exactly 22 characters, in the 12-hour format
MM/DD/YYYY hh:mm:ss AM/PM with leading-zero 2-digit month, day, hour,
minute and second and a 4-digit year; local time 2023-03-30 00:34:56
formats as "03/30/2023 12:34:56 AM". -/
theorem UClock.clockString_length (t : UClock.LocalTime)
    (h : UClock.ValidLocalTime t) :
    (UClock.clockString t).length = UClock.CLOCK_LEN ∧
      UClock.clockString
        { year := 2023, month := 3, day := 30, hour := 0, minute := 34,
          second := 56 } = "03/30/2023 12:34:56 AM" := by
  obtain ⟨h1, h2, h3, h4, h5, h6, h7, h8, h9⟩ := h
  constructor
  · simp only [UClock.clockString, String.length_append, UClock.CLOCK_LEN]
    rw [UClock.pad2_length (by omega), UClock.pad2_length (by omega),
      UClock.pad2_length (show UClock.hour12 t.hour < 100 from
        Nat.lt_of_le_of_lt (UClock.hour12_le t.hour) (by omega)),
      UClock.pad2_length (by omega), UClock.pad2_length (by omega),
      UClock.year_length h8 h9, UClock.ampm_length]
    rfl
  · decide

/-- Witness for C2 at the spec's example time 2023-03-30 00:34:56. -/
theorem UClock.clockString_length_witness :
    UClock.ValidLocalTime
        { year := 2023, month := 3, day := 30, hour := 0, minute := 34,
          second := 56 } ∧
      (UClock.clockString
        { year := 2023, month := 3, day := 30, hour := 0, minute := 34,
          second := 56 }).length = UClock.CLOCK_LEN :=
  ⟨by decide,
    (UClock.clockString_length
      { year := 2023, month := 3, day := 30, hour := 0, minute := 34,
        second := 56 } (by decide)).1⟩

namespace UClock

/-! ### TCHAR buffers and UpdateClock (uclock.c lines 77-81, 366-401)

The window state struct `CLOCKWINDOW` holds
`TCHAR szClock[CLOCK_LEN + 1]` and `TCHAR szUptime[UPTIME_LEN + 1]`.
Buffers are lists of character codes of that physical length; 0 is NUL. -/

/-- `memset(buf, 0, size * sizeof(TCHAR))`: an all-zero buffer. -/
def memset0 (size : Nat) : List Nat := List.replicate size 0

/-- Write string `s` into a buffer of physical size `maxsize`: at most
`maxsize - 1` character codes, the rest zero (terminating NUL plus the
zero tail left by the preceding memset). -/
def writeCStr (s : String) (maxsize : Nat) : List Nat :=
  let w := (s.data.map Char.toNat).take (maxsize - 1)
  w ++ List.replicate (maxsize - w.length) 0

/-- `STRFTIME(buf, maxsize, fmt, tm)` by its C semantics: if the formatted
string `s` plus its terminating NUL fits in `maxsize` elements, the buffer
receives it and the call returns `s.length`. Otherwise the call returns 0
and C99 makes the array contents indeterminate: the call may have
overwritten any prefix of the array (it never writes beyond `maxsize`
elements). That is modelled by the arbitrary partial overwrite `junk` of
the passed buffer: every possible post-failure content of length
`maxsize` is `(junk ++ buf).take maxsize` for some `junk`, with
`junk = []` the leave-as-passed case. -/
def STRFTIME (buf junk : List Nat) (maxsize : Nat) (s : String) :
    Nat × List Nat :=
  if s.length + 1 ≤ maxsize then (s.length, writeCStr s maxsize)
  else (0, (junk ++ buf).take maxsize)

/-- `SNPRINTF(buf, maxsize, fmt, ...)` by its C99 semantics: the output is
truncated to `maxsize - 1` characters and always NUL-terminated
(overwriting the just-memset buffer `buf`), and the call returns the
length the untruncated output would have had. -/
def SNPRINTF (_buf : List Nat) (maxsize : Nat) (s : String) :
    Nat × List Nat :=
  (s.length, writeCStr s maxsize)

/-- The window state (struct tagCLOCKWINDOW, uclock.c lines 77-81); the
`hwnd` handle is not part of the data model. -/
structure CLOCKWINDOW where
  szClock : List Nat
  szUptime : List Nat
deriving Repr, DecidableEq

/-- The state set up by `CreateClockWindow` (uclock.c lines 171-185):
the allocated struct is memset to zero, so both buffers start zeroed. -/
def initialWindow : CLOCKWINDOW :=
  { szClock := memset0 (CLOCK_LEN + 1), szUptime := memset0 (UPTIME_LEN + 1) }

/-- `UpdateClock` (uclock.c lines 366-401), with environment readings
passed explicitly: `now` is the broken-down local time from
`time`/`localtime`, `ticks` the value of `GetTickCount64OrOtherwise()`,
and `junk` the indeterminate contents a failed STRFTIME call would leave
(irrelevant on the success path). Returns the new window state and
whether `RedrawWindow` was called. Mirrors the source exactly: memset
`szClock`, STRFTIME, early return on 0; decompose ticks; memset
`szUptime`, SNPRINTF, early return on 0; RedrawWindow. -/
def UpdateClock (window : CLOCKWINDOW) (now : LocalTime) (ticks : Nat)
    (junk : List Nat) : CLOCKWINDOW × Bool :=
  let r := STRFTIME (memset0 (CLOCK_LEN + 1)) junk (CLOCK_LEN + 1)
    (clockString now)
  if r.1 = 0 then ({ window with szClock := r.2 }, false)
  else
    let f := uptimeFields ticks
    let r2 := SNPRINTF (memset0 (UPTIME_LEN + 1)) (UPTIME_LEN + 1)
      (uptimeString f)
    if r2.1 = 0 then ({ szClock := r.2, szUptime := r2.2 }, false)
    else ({ szClock := r.2, szUptime := r2.2 }, true)

/-! ### Buffer well-formedness -/

/-- C-string well-formedness of a buffer with string capacity `cap`
(physical size `cap + 1`): correct physical length, NUL-terminated
somewhere, and the string contents (characters before the first NUL) at
most `cap` long. -/
def bufWF (buf : List Nat) (cap : Nat) : Prop :=
  buf.length = cap + 1 ∧ 0 ∈ buf ∧
    (buf.takeWhile (fun c => c != 0)).length ≤ cap

theorem takeWhile_append_zero_length_le (w r : List Nat) :
    ((w ++ 0 :: r).takeWhile (fun c => c != 0)).length ≤ w.length := by
  induction w with
  | nil => simp [List.takeWhile_cons]
  | cons a w ih =>
    simp only [List.cons_append, List.takeWhile_cons]
    split
    · simpa using ih
    · simp

theorem bufWF_memset0 (cap : Nat) : bufWF (memset0 (cap + 1)) cap := by
  refine ⟨by simp [memset0], by simp [memset0], ?_⟩
  simp [memset0, List.replicate_succ, List.takeWhile_cons]

theorem writeCStr_decomp (s : String) (cap : Nat) :
    ∃ w : List Nat, writeCStr s (cap + 1) = w ++ 0 :: List.replicate (cap - w.length) 0
      ∧ w.length ≤ cap := by
  refine ⟨(s.data.map Char.toNat).take cap, ?_, ?_⟩
  · simp only [writeCStr, Nat.add_sub_cancel]
    have hlen : ((s.data.map Char.toNat).take cap).length ≤ cap := by
      simp [List.length_take]
    rw [show cap + 1 - ((s.data.map Char.toNat).take cap).length
      = (cap - ((s.data.map Char.toNat).take cap).length) + 1 by omega]
    rw [List.replicate_succ]
  · simp [List.length_take]

theorem bufWF_writeCStr (s : String) (cap : Nat) :
    bufWF (writeCStr s (cap + 1)) cap := by
  obtain ⟨w, heq, hle⟩ := writeCStr_decomp s cap
  rw [heq]
  refine ⟨?_, ?_, ?_⟩
  · simp only [List.length_append, List.length_cons, List.length_replicate]
    omega
  · exact List.mem_append_right _ (List.mem_cons_self 0 _)
  · exact Nat.le_trans (takeWhile_append_zero_length_le w _) hle

theorem clockString_length_pos (t : LocalTime) :
    0 < (clockString t).length := by
  have := ampm_length t.hour
  simp only [clockString, String.length_append]
  omega

theorem uptimeString_length_pos (f : UptimeFields) :
    0 < (uptimeString f).length := by
  have := natStr_length_pos f.days
  simp only [uptimeString, String.length_append]
  omega

/-- Closed-form case analysis of `UpdateClock`: either the clock string
fits its buffer (then both buffers are rewritten and a repaint is
requested — the SNPRINTF return value is the untruncated length, which is
never 0 for `UPTIME_FMT`, so its early-return check never fires), or
STRFTIME reports failure (then the update returns early; szClock holds
the indeterminate contents the failed call left over the memset zeros,
and szUptime is untouched). -/
theorem UpdateClock_eq (w : CLOCKWINDOW) (now : LocalTime) (ticks : Nat)
    (junk : List Nat) :
    UpdateClock w now ticks junk =
      if (clockString now).length + 1 ≤ CLOCK_LEN + 1 then
        ({ szClock := writeCStr (clockString now) (CLOCK_LEN + 1),
           szUptime := writeCStr (uptimeString (uptimeFields ticks))
             (UPTIME_LEN + 1) }, true)
      else ({ w with szClock := (junk ++ memset0 (CLOCK_LEN + 1)).take (CLOCK_LEN + 1) }, false) := by
  have hc := clockString_length_pos now
  have hu := uptimeString_length_pos (uptimeFields ticks)
  unfold UpdateClock STRFTIME SNPRINTF
  split
  · rename_i hfit
    have h1 : ¬(clockString now).length = 0 := by omega
    have h2 : ¬(uptimeString (uptimeFields ticks)).length = 0 := by omega
    simp [h1, h2]
  · simp

end UClock

namespace UClock

instance (buf : List Nat) (cap : Nat) : Decidable (bufWF buf cap) := by
  unfold bufWF
  infer_instance

theorem writeCStr_length (s : String) (cap : Nat) :
    (writeCStr s (cap + 1)).length = cap + 1 := by
  obtain ⟨w, heq, hle⟩ := writeCStr_decomp s cap
  rw [heq]
  simp only [List.length_append, List.length_cons, List.length_replicate]
  omega

theorem failureContents_length (junk : List Nat) (n : Nat) :
    ((junk ++ memset0 n).take n).length = n := by
  simp only [List.length_take, List.length_append, memset0,
    List.length_replicate]
  omega

/-! ### Concrete states for the failure-path results -/

/-- A window state holding the text of a previous successful tick
(2023-03-30 00:34:56, uptime 1 d 1 hr). -/
def staleWindow : CLOCKWINDOW :=
  (UpdateClock initialWindow
    { year := 2023, month := 3, day := 30, hour := 0, minute := 34,
      second := 56 } 90000000 []).1

/-- A broken-down time whose CLOCK_FMT rendering (23 characters, due to the
5-digit year) does not fit the szClock buffer, making STRFTIME report
failure. -/
def badTime : LocalTime :=
  { year := 20000, month := 1, day := 1, hour := 0, minute := 0,
    second := 0 }

/-- One possible content a failed STRFTIME call may leave in the array
(C99 makes it indeterminate): 23 copies of the character code of A, with
no NUL anywhere. -/
def junkNoNul : List Nat := List.replicate (CLOCK_LEN + 1) 65

end UClock

/-- C4 as stated is false: there is an execution in which the clock
formatting call fails and the previously displayed text does NOT remain
in the state — UpdateClock memsets the buffer to zero before calling
STRFTIME, so in the execution where the failed call writes nothing the
stored clock text afterwards is empty, different from the stale text. -/
theorem UClock.stale_text_cex :
    (UClock.UpdateClock UClock.staleWindow UClock.badTime 90000000 []).2 =
      false ∧
    (UClock.UpdateClock UClock.staleWindow UClock.badTime
        90000000 []).1.szClock ≠
      UClock.staleWindow.szClock := by
  decide

/-- C4 (amended): if the clock formatting call reports failure during a
tick, that display update is silently skipped — the update returns early
and no repaint is requested, and the uptime field keeps its previous
contents — but the failed field is not guaranteed to keep the stale
text: the memset preceding the formatting call destroys it, so the
buffer afterwards holds only what the failed call left (indeterminate
per C99), independent of the previously stored clock text; it stays so
until the next successful tick. -/
theorem UClock.format_failure_skips_update (w : UClock.CLOCKWINDOW)
    (now : UClock.LocalTime) (ticks : Nat) (junk : List Nat)
    (h : UClock.CLOCK_LEN < (UClock.clockString now).length) :
    (UClock.UpdateClock w now ticks junk).2 = false ∧
    (UClock.UpdateClock w now ticks junk).1.szUptime = w.szUptime ∧
    ∀ w2 : UClock.CLOCKWINDOW,
      (UClock.UpdateClock w2 now ticks junk).1.szClock =
        (UClock.UpdateClock w now ticks junk).1.szClock := by
  rw [UClock.UpdateClock_eq, if_neg (by omega)]
  refine ⟨rfl, rfl, ?_⟩
  intro w2
  rw [UClock.UpdateClock_eq, if_neg (by omega)]

/-- Witness for the amended C4 at the concrete failing input. -/
theorem UClock.format_failure_skips_update_witness :
    UClock.CLOCK_LEN < (UClock.clockString UClock.badTime).length ∧
    (UClock.UpdateClock UClock.staleWindow UClock.badTime
        90000000 []).1.szUptime =
      UClock.staleWindow.szUptime :=
  ⟨by decide,
    (UClock.format_failure_skips_update UClock.staleWindow UClock.badTime
      90000000 [] (by decide)).2.1⟩

/-- C7 as stated is false on the clock-formatting failure path: C99
leaves a failed strftime call's array contents indeterminate, so the
clock buffer need not be null-terminated after such a tick — here the
failed call left 23 non-NUL characters. -/
theorem UClock.null_termination_cex :
    ¬ UClock.bufWF
      (UClock.UpdateClock UClock.staleWindow UClock.badTime 90000000
        UClock.junkNoNul).1.szClock UClock.CLOCK_LEN := by
  decide

/-- C7 (amended): after creation both buffers are null-terminated with
contents within their 22/28-character capacities, and every timer-tick
update preserves this except for the clock buffer of a tick whose
strftime call failed: the uptime buffer is well-formed after every update
(freshly written on success, untouched on failure), the clock buffer is
well-formed whenever its formatting succeeded (its rendering fits the
capacity), and even after a failure the clock buffer keeps its physical
size — a failed strftime never writes beyond the array, but its contents
are indeterminate and need not be null-terminated. -/
theorem UClock.buffers_wf_guarantee :
    (UClock.bufWF UClock.initialWindow.szClock UClock.CLOCK_LEN ∧
      UClock.bufWF UClock.initialWindow.szUptime UClock.UPTIME_LEN) ∧
    ∀ (w : UClock.CLOCKWINDOW) (now : UClock.LocalTime) (ticks : Nat)
      (junk : List Nat),
      UClock.bufWF w.szUptime UClock.UPTIME_LEN →
      ((UClock.clockString now).length ≤ UClock.CLOCK_LEN →
        UClock.bufWF (UClock.UpdateClock w now ticks junk).1.szClock
          UClock.CLOCK_LEN) ∧
      UClock.bufWF (UClock.UpdateClock w now ticks junk).1.szUptime
        UClock.UPTIME_LEN ∧
      (UClock.UpdateClock w now ticks junk).1.szClock.length =
        UClock.CLOCK_LEN + 1 := by
  constructor
  · exact ⟨UClock.bufWF_memset0 _, UClock.bufWF_memset0 _⟩
  · intro w now ticks junk hu
    rw [UClock.UpdateClock_eq]
    split
    · exact ⟨fun _ => UClock.bufWF_writeCStr _ _, UClock.bufWF_writeCStr _ _,
        UClock.writeCStr_length _ _⟩
    · rename_i hnofit
      exact ⟨fun hle => absurd (by omega) hnofit, hu,
        UClock.failureContents_length _ _⟩

/-- Witness for the amended C7: a concrete successful update of the
freshly created state keeps both buffers well-formed. -/
theorem UClock.buffers_wf_guarantee_witness :
    UClock.bufWF
      (UClock.UpdateClock UClock.initialWindow
        { year := 2023, month := 3, day := 30, hour := 0, minute := 34,
          second := 56 } 90000000 []).1.szClock UClock.CLOCK_LEN ∧
    UClock.bufWF
      (UClock.UpdateClock UClock.initialWindow
        { year := 2023, month := 3, day := 30, hour := 0, minute := 34,
          second := 56 } 90000000 []).1.szUptime UClock.UPTIME_LEN :=
  ⟨(UClock.buffers_wf_guarantee.2 UClock.initialWindow
      { year := 2023, month := 3, day := 30, hour := 0, minute := 34,
        second := 56 } 90000000 [] UClock.buffers_wf_guarantee.1.2).1
      (by decide),
    (UClock.buffers_wf_guarantee.2 UClock.initialWindow
      { year := 2023, month := 3, day := 30, hour := 0, minute := 34,
        second := 56 } 90000000 [] UClock.buffers_wf_guarantee.1.2).2.1⟩

/-- C10: in a single tick update, if formatting the clock string fails the
update returns early — the uptime string is not recomputed for that tick
and no repaint is requested; the repaint request is issued only when both
the clock and the uptime strings have been successfully formatted (and
then both buffers hold the freshly formatted strings). -/
theorem UClock.redraw_only_after_both (w : UClock.CLOCKWINDOW)
    (now : UClock.LocalTime) (ticks : Nat) (junk : List Nat) :
    (UClock.CLOCK_LEN < (UClock.clockString now).length →
      (UClock.UpdateClock w now ticks junk).1.szUptime = w.szUptime ∧
      (UClock.UpdateClock w now ticks junk).2 = false) ∧
    ((UClock.UpdateClock w now ticks junk).2 = true →
      (UClock.clockString now).length ≤ UClock.CLOCK_LEN ∧
      (UClock.UpdateClock w now ticks junk).1.szClock =
        UClock.writeCStr (UClock.clockString now) (UClock.CLOCK_LEN + 1) ∧
      (UClock.UpdateClock w now ticks junk).1.szUptime =
        UClock.writeCStr (UClock.uptimeString (UClock.uptimeFields ticks))
          (UClock.UPTIME_LEN + 1)) := by
  rw [UClock.UpdateClock_eq]
  split
  · rename_i hfit
    refine ⟨fun h => absurd hfit (by omega), fun _ => ⟨by omega, rfl, rfl⟩⟩
  · rename_i hnofit
    refine ⟨fun _ => ⟨rfl, rfl⟩, fun h => by simp at h⟩

/-- Witness for C10 at a concrete clock-formatting failure. -/
theorem UClock.redraw_only_after_both_witness :
    (UClock.UpdateClock UClock.initialWindow UClock.badTime
        3661000 []).1.szUptime =
      UClock.initialWindow.szUptime ∧
    (UClock.UpdateClock UClock.initialWindow UClock.badTime 3661000 []).2 =
      false :=
  (UClock.redraw_only_after_both UClock.initialWindow UClock.badTime
    3661000 []).1 (by decide)

namespace UClock

/-! ### StartClock / StopClock and WM_SHOWWINDOW
(uclock.c lines 151-156, 336-361)

`StartClock` busy-waits until the wall clock is within 10 ms past a whole
second, then calls `UpdateClock` and `SetTimer(..., 1000, ...)`;
`StopClock` calls `KillTimer`. The WM_SHOWWINDOW case of
`ClockWindowProc` calls `StartClock` when the window becomes visible and
`StopClock` when it becomes hidden. The environment readings of the
busy-wait (`GetLocalTime().wMilliseconds`, one per iteration) are passed
in as the list `polls`; the handler's observable calls are returned as a
trace, in program order. -/

/-- Observable environment calls made by the show/hide handlers. -/
inductive TimerAction where
  | getLocalTime (msec : Nat)
  | sleep (ms : Nat)
  | updateClock
  | setTimer (interval : Nat)
  | killTimer
deriving Repr, DecidableEq

/-- The do/while synchronization loop of `StartClock` (uclock.c lines
342-345): each iteration reads the local time then sleeps 2 ms, repeating
while the sub-second component just read exceeds 10
(`lt.wMilliseconds % 1000 > 10`). Returns `none` if the supplied poll
readings run out before one is within 10 ms past the second (the real
loop would keep polling). -/
def syncLoop : List Nat → Option (List TimerAction)
  | [] => none
  | m :: rest =>
    if m % 1000 > 10 then
      (syncLoop rest).map
        (fun acts => TimerAction.getLocalTime m :: TimerAction.sleep 2 :: acts)
    else some [TimerAction.getLocalTime m, TimerAction.sleep 2]

/-- `StartClock` (uclock.c lines 336-350): run the synchronization loop,
then update the display, then start the 1000 ms refresh timer. -/
def StartClock (polls : List Nat) : Option (List TimerAction) :=
  (syncLoop polls).map
    (fun acts => acts ++ [TimerAction.updateClock, TimerAction.setTimer 1000])

/-- `StopClock` (uclock.c lines 356-361): kill the refresh timer. -/
def StopClock : List TimerAction := [TimerAction.killTimer]

/-- The WM_SHOWWINDOW case of `ClockWindowProc` (uclock.c lines 151-156):
nonzero `wParam` (the window is being shown) runs `StartClock`, zero runs
`StopClock`. -/
def onShowWindow (visible : Bool) (polls : List Nat) :
    Option (List TimerAction) :=
  if visible then StartClock polls else some StopClock

theorem syncLoop_spec (polls : List Nat)
    (h : ∃ m ∈ polls, m % 1000 ≤ 10) :
    ∃ sync last,
      syncLoop polls = some (List.flatMap (sync ++ [last])
        (fun m => [TimerAction.getLocalTime m, TimerAction.sleep 2])) ∧
      (∀ m ∈ sync, m % 1000 > 10) ∧ last % 1000 ≤ 10 := by
  induction polls with
  | nil => simp at h
  | cons a rest ih =>
    by_cases ha : a % 1000 > 10
    · have hrest : ∃ m ∈ rest, m % 1000 ≤ 10 := by
        obtain ⟨m, hm, hm10⟩ := h
        rcases List.mem_cons.mp hm with rfl | hmem
        · omega
        · exact ⟨m, hmem, hm10⟩
      obtain ⟨sync, last, heq, hall, hlast⟩ := ih hrest
      refine ⟨a :: sync, last, ?_, ?_, hlast⟩
      · simp [syncLoop, ha, heq]
      · intro m hm
        rcases List.mem_cons.mp hm with rfl | hmem
        · exact ha
        · exact hall m hmem
    · refine ⟨[], a, ?_, by simp, by omega⟩
      simp [syncLoop, ha]

end UClock

/-- C3: when the window becomes hidden the show/hide handler stops the
refresh timer; when it becomes visible the handler first synchronizes to
the next whole-second boundary by polling the local time in a sleep loop
until the sub-second component is at most 10 ms, then updates the
displayed text immediately, and only then starts the 1000 ms periodic
timer (the trace ends with the update followed by the timer start, after
all the polls). -/
theorem UClock.show_hide_handler (polls : List Nat)
    (h : ∃ m ∈ polls, m % 1000 ≤ 10) :
    UClock.onShowWindow false polls = some [UClock.TimerAction.killTimer] ∧
    ∃ sync last,
      UClock.onShowWindow true polls =
        some (List.flatMap (sync ++ [last])
          (fun m => [UClock.TimerAction.getLocalTime m,
            UClock.TimerAction.sleep 2])
          ++ [UClock.TimerAction.updateClock,
            UClock.TimerAction.setTimer 1000]) ∧
      (∀ m ∈ sync, m % 1000 > 10) ∧ last % 1000 ≤ 10 := by
  obtain ⟨sync, last, heq, hall, hlast⟩ := UClock.syncLoop_spec polls h
  refine ⟨rfl, sync, last, ?_, hall, hlast⟩
  simp [UClock.onShowWindow, UClock.StartClock, heq]

/-- Witness for C3: polls reading 500 ms then 5 ms past the second. -/
theorem UClock.show_hide_handler_witness :
    (∃ m ∈ [500, 5], m % 1000 ≤ 10) ∧
      UClock.onShowWindow false [500, 5] =
        some [UClock.TimerAction.killTimer] :=
  ⟨by decide, (UClock.show_hide_handler [500, 5] (by decide)).1⟩

namespace UClock

/-! ### WinMain, optional capabilities and exit codes
(uclock.c lines 93-110, 171-185, 403-496) -/

/-- Environment outcomes `WinMain` depends on: whether kernel32.dll
loads, which optional entry points resolve, whether the accelerator
table is created, whether the OS-level window creation succeeds, whether
the malloc inside `CreateClockWindow` succeeds, and the readings the two
tick sources would return. -/
structure Env where
  loadLibraryOk : Bool
  hasGetTickCount64 : Bool
  hasSetThreadExecutionState : Bool
  accelTableOk : Bool
  createWindowOsOk : Bool
  mallocOk : Bool
  tickCount64 : Nat
  tickCount : Nat
deriving Repr, DecidableEq

/-- Resolution of the optional `GetTickCount64` entry point at startup
(uclock.c lines 419-429): the pointer is NULL when kernel32 fails to
load or the symbol is absent. -/
def resolveGetTickCount64 (env : Env) : Option Nat :=
  if env.loadLibraryOk && env.hasGetTickCount64 then some env.tickCount64
  else none

/-- The `GetTickCount64OrOtherwise` macro (uclock.c lines 102-103): call
`GetTickCount64` through the resolved pointer when it is non-NULL,
otherwise fall back to `GetTickCount` (the lower-range source that rolls
over near 49.7 days). -/
def GetTickCount64OrOtherwise (pGetTickCount64 : Option Nat)
    (getTickCount : Nat) : Nat :=
  match pGetTickCount64 with
  | none => getTickCount
  | some ticks => ticks

/-- `CreateClockWindow` (uclock.c lines 171-185): allocate and zero the
state struct; returns 0 on success and -1 when the malloc fails, aborting
window creation without terminating the process. -/
def CreateClockWindow (mallocOk : Bool) : Int :=
  if mallocOk then 0 else -1

/-- `CreateWindowEx` as used here: the window handle is non-NULL iff the
OS-level creation succeeds and the WM_CREATE handler (which runs
`CreateClockWindow`) did not return -1. -/
def CreateWindowEx (env : Env) : Option Unit :=
  if env.createWindowOsOk ∧ CreateClockWindow env.mallocOk = 0 then some ()
  else none

/-- The same environment with the optional capabilities absent (kernel32
not loaded, so neither GetTickCount64 nor SetThreadExecutionState
resolves). -/
def withoutOptionalCaps (env : Env) : Env :=
  { env with
    loadLibraryOk := false
    hasGetTickCount64 := false
    hasSetThreadExecutionState := false }

/-- `WinMain` (uclock.c lines 403-496) reduced to its control flow:
resolve the optional entry points (never fatal), create the accelerator
table (`retval = 1` and cleanup on failure), create the window
(`retval = 1` and cleanup on NULL), run the message loop (a normal close
posts WM_QUIT and leaves `retval` at its initial 0), return `retval`. -/
def WinMain (env : Env) : Nat :=
  let _pGetTickCount64 := resolveGetTickCount64 env
  let _pSetThreadExecutionState :=
    env.loadLibraryOk && env.hasSetThreadExecutionState
  if env.accelTableOk = false then 1
  else
    match CreateWindowEx env with
    | none => 1
    | some _ => 0

end UClock

/-- C5: the process exits with code 0 on normal window close, with code 1
if the accelerator table or the window (including its state allocation)
fails to initialize; a state-allocation failure at creation makes
CreateClockWindow return -1, which aborts window creation (NULL handle)
without terminating the process abnormally — WinMain still returns
normally, with exit code 1. -/
theorem UClock.exit_codes (env : UClock.Env) :
    (UClock.WinMain env = 0 ↔
      env.accelTableOk ∧ env.createWindowOsOk ∧ env.mallocOk) ∧
    (UClock.WinMain env = 0 ∨ UClock.WinMain env = 1) ∧
    (env.mallocOk = false →
      UClock.CreateClockWindow env.mallocOk = -1 ∧
      UClock.CreateWindowEx env = none ∧ UClock.WinMain env = 1) := by
  obtain ⟨llo, h64, hstes, acc, cwo, mal, t64, t32⟩ := env
  cases acc <;> cases cwo <;> cases mal <;>
    simp [UClock.WinMain, UClock.CreateWindowEx, UClock.CreateClockWindow]

/-- Witness for C5: with every resource available the exit code is 0, and
a failed allocation alone forces exit code 1. -/
theorem UClock.exit_codes_witness :
    UClock.WinMain
      { loadLibraryOk := true, hasGetTickCount64 := true,
        hasSetThreadExecutionState := true, accelTableOk := true,
        createWindowOsOk := true, mallocOk := true, tickCount64 := 0,
        tickCount := 0 } = 0 ∧
    UClock.WinMain
      { loadLibraryOk := true, hasGetTickCount64 := true,
        hasSetThreadExecutionState := true, accelTableOk := true,
        createWindowOsOk := true, mallocOk := false, tickCount64 := 0,
        tickCount := 0 } = 1 :=
  ⟨(UClock.exit_codes _).1.mpr (by decide),
    ((UClock.exit_codes _).2.2 rfl).2.2⟩

/-- C6: when GetTickCount64 is unavailable (library missing or symbol
absent) every uptime update reads the fallback GetTickCount source, and
optional-capability absence is never fatal: the exit code is unchanged by
dropping GetTickCount64 and SetThreadExecutionState, and with the
remaining resources available the program still starts and runs (exit
path 0). -/
theorem UClock.tick_fallback_nonfatal :
    (∀ (env : UClock.Env) (w : UClock.CLOCKWINDOW) (now : UClock.LocalTime)
      (junk : List Nat),
      UClock.resolveGetTickCount64 env = none →
        UClock.UpdateClock w now
          (UClock.GetTickCount64OrOtherwise
            (UClock.resolveGetTickCount64 env) env.tickCount) junk
          = UClock.UpdateClock w now env.tickCount junk) ∧
    (∀ env : UClock.Env,
      UClock.WinMain (UClock.withoutOptionalCaps env) = UClock.WinMain env ∧
      (env.accelTableOk → env.createWindowOsOk → env.mallocOk →
        UClock.WinMain (UClock.withoutOptionalCaps env) = 0)) := by
  constructor
  · intro env w now junk h
    rw [h]
    rfl
  · intro env
    obtain ⟨llo, h64, hstes, acc, cwo, mal, t64, t32⟩ := env
    constructor
    · cases acc <;> cases cwo <;> cases mal <;>
        simp [UClock.WinMain, UClock.withoutOptionalCaps,
          UClock.CreateWindowEx, UClock.CreateClockWindow]
    · intro ha hc hm
      simp only at ha hc hm
      subst ha; subst hc; subst hm
      simp [UClock.WinMain, UClock.withoutOptionalCaps,
        UClock.CreateWindowEx, UClock.CreateClockWindow]

/-- Witness for C6: with kernel32 unavailable the resolved pointer is
NULL and a concrete update uses the GetTickCount reading. -/
theorem UClock.tick_fallback_nonfatal_witness :
    UClock.resolveGetTickCount64
      { loadLibraryOk := false, hasGetTickCount64 := false,
        hasSetThreadExecutionState := false, accelTableOk := true,
        createWindowOsOk := true, mallocOk := true, tickCount64 := 77,
        tickCount := 3661000 } = none ∧
    UClock.UpdateClock UClock.initialWindow
      { year := 2023, month := 3, day := 30, hour := 0, minute := 34,
        second := 56 }
      (UClock.GetTickCount64OrOtherwise
        (UClock.resolveGetTickCount64
          { loadLibraryOk := false, hasGetTickCount64 := false,
            hasSetThreadExecutionState := false, accelTableOk := true,
            createWindowOsOk := true, mallocOk := true, tickCount64 := 77,
            tickCount := 3661000 }) 3661000) []
      = UClock.UpdateClock UClock.initialWindow
        { year := 2023, month := 3, day := 30, hour := 0, minute := 34,
          second := 56 } 3661000 [] :=
  ⟨rfl,
    UClock.tick_fallback_nonfatal.1 _ UClock.initialWindow
      { year := 2023, month := 3, day := 30, hour := 0, minute := 34,
        second := 56 } [] rfl⟩

namespace UClock

/-! ### PaintClockWindow layout (uclock.c lines 200-330) -/

/-- `UPTIME_LABEL` = "System Uptime" (uclock.c lines 56-58), as character
codes. -/
def UPTIME_LABEL : List Nat := "System Uptime".data.map Char.toNat

/-- The text a `TCHAR` buffer displays: its character codes up to the
first NUL (`TextOut(..., buf, STRLEN(buf))`). -/
def bufText (buf : List Nat) : List Nat :=
  buf.takeWhile (fun c => c != 0)

/-- Drawing operations `PaintClockWindow` issues into the off-screen
buffer: the background fill and the centered text runs at a given font
height. -/
inductive DrawOp where
  | fill (width height : Nat)
  | text (x y fontHeight : Nat) (s : List Nat)
deriving Repr, DecidableEq

/-- `PaintClockWindow` (uclock.c lines 209-330): read the current client
rectangle (`width` = rect.right, `height` = rect.bottom), scale the font
sizes with the window height (`cHeightClock = rect.bottom / 8`,
`cHeightUptime = rect.bottom / 12`, C integer division of nonnegative
longs), center the 4-line display block, and draw the clock text, the
uptime label and the uptime text. `displayHeight ≤ height` (it is at most
3·height/8), so the C signed subtraction in `y` agrees with the `Nat`
subtraction here. The GDI double-buffering is not modelled; the emitted
operations are in program order. -/
def PaintClockWindow (window : CLOCKWINDOW) (width height : Nat) :
    List DrawOp :=
  let cHeightClock := height / 8
  let cHeightUptime := height / 12
  let displayHeight := cHeightClock + 3 * cHeightUptime
  let x := width / 2
  let y := (height - displayHeight) / 2
  [DrawOp.fill width height,
    DrawOp.text x y cHeightClock (bufText window.szClock),
    DrawOp.text x (y + cHeightClock + cHeightUptime) cHeightUptime
      UPTIME_LABEL,
    DrawOp.text x (y + cHeightClock + 2 * cHeightUptime) cHeightUptime
      (bufText window.szUptime)]

/-- The font heights of the text operations of a draw list, in order. -/
def textFontHeights (ops : List DrawOp) : List Nat :=
  ops.filterMap (fun op =>
    match op with
    | DrawOp.text _ _ fontHeight _ => some fontHeight
    | _ => none)

end UClock

/-- C8: for a client area of height H the paint computation uses a
primary (clock) font size of H/8 and a secondary (uptime label and
uptime text) font size of H/12, both by integer division; the sizes are
recomputed at each paint from the height current at that moment, so they
depend on nothing else (any state and width give the same font sizes for
the same height). -/
theorem UClock.paint_font_sizes (w : UClock.CLOCKWINDOW)
    (width height : Nat) :
    UClock.textFontHeights (UClock.PaintClockWindow w width height) =
      [height / 8, height / 12, height / 12] ∧
    (UClock.PaintClockWindow w width height).head? =
      some (UClock.DrawOp.fill width height) ∧
    ∀ (w2 : UClock.CLOCKWINDOW) (width2 : Nat),
      UClock.textFontHeights (UClock.PaintClockWindow w2 width2 height) =
        UClock.textFontHeights (UClock.PaintClockWindow w width height) :=
  ⟨rfl, rfl, fun _ _ => rfl⟩
